import Mathlib

/-!
Shallow embedding of the IICS CI/CD pipeline orchestration client
(`scripts/iics_client.py` together with `scripts/exceptions.py`).

Python strings are modelled as Lean `String`s (with list-of-char helpers
for the slicing/stripping operations), Python `None`-able parameters as
`Option`, Python truthiness of an optional string by `strTruthy`, raised
exceptions as the `IICSExc` inductive threaded through `Except`, and the
network as explicit response values handed to each operation in the order
the code would issue the requests.  Unbounded polling loops are modelled
by structural recursion over the finite list of responses supplied, with
`Option` capturing the case in which the supplied responses run out while
the loop is still going.
-/

namespace IICS

/-- Exceptions of `scripts/exceptions.py` together with the two
`requests` exception kinds the client code distinguishes
(`requests.HTTPError`, carrying the response status code, and any other
`requests.RequestException`).  `IICSJobError.__init__` stores `job_state`
and `object_name`; `IICSPullError.__init__` stores `pull_status`. -/
inductive IICSExc where
  | configError (message : String)
  | authenticationError (message : String)
  | pullError (message : String) (pull_status : Option String)
  | jobError (message : String) (job_state : Option Int) (object_name : Option String)
  | httpError (status_code : Nat) (message : String)
  | requestException (message : String)
  deriving DecidableEq, Repr

/-- Python truthiness of an optional string: `None` and `""` are falsy
(this is what `if not self.pod_url:` tests). -/
def strTruthy : Option String → Bool
  | none => false
  | some s => !(s == "")

/-- Whether an exception is a `requests.RequestException`
(`requests.HTTPError` is a subclass), the predicate used by the
`retry_if_exception_type(requests.RequestException)` tenacity condition. -/
def isRequestException : IICSExc → Bool
  | .httpError _ _ => true
  | .requestException _ => true
  | _ => false

/-- Python `s.rstrip("/")` on a list of characters. -/
def rstripSlashL (l : List Char) : List Char :=
  (l.reverse.dropWhile (fun c => c == '/')).reverse

/-- Python `s.rstrip("/")`. -/
def rstripSlash (s : String) : String :=
  String.mk (rstripSlashL s.toList)

/-- Python `s.endswith("/saas")` on a list of characters. -/
def endsWithSaasL (l : List Char) : Bool :=
  "/saas".toList.reverse.isPrefixOf l.reverse

/-- Python `s.endswith("/saas")`. -/
def endsWithSaas (s : String) : Bool :=
  endsWithSaasL s.toList

/-- Python `s[: -len("/saas")]` (all but the last five characters). -/
def dropSaasL (l : List Char) : List Char :=
  l.take (l.length - 5)

/-- Python `s[: -len("/saas")]`. -/
def dropSaas (s : String) : String :=
  String.mk (dropSaasL s.toList)

/-- `IICSClient._api_v2_base_url`: the pod URL, trailing slashes removed
and a trailing `/saas` segment stripped. -/
def api_v2_base_url (pod_url : Option String) : Except IICSExc String :=
  if !(strTruthy pod_url) then
    .error (.configError "Pod URL is required.")
  else
    let base := rstripSlash (pod_url.getD "")
    if endsWithSaas base then .ok (dropSaas base) else .ok base

/-- `IICSClient._core_v3_base_urls`: the ordered candidate base URLs for
core-v3 endpoints — the suffix-stripped pod URL first, then the pod URL
with `/saas`. -/
def core_v3_base_urls (pod_url : Option String) : Except IICSExc (List String) :=
  if !(strTruthy pod_url) then
    .error (.configError "Pod URL is required.")
  else
    let base := rstripSlash (pod_url.getD "")
    if endsWithSaas base then
      let base_no_saas := dropSaas base
      let base_with_saas := base
      if base_no_saas == base_with_saas then .ok [base_no_saas]
      else .ok [base_no_saas, base_with_saas]
    else
      let base_no_saas := base
      let base_with_saas := base ++ "/saas"
      if base_no_saas == base_with_saas then .ok [base_no_saas]
      else .ok [base_no_saas, base_with_saas]

/-- An HTTP response as the code observes it: its status code and the
message a `raise_for_status` `HTTPError` for it would carry. -/
structure HttpResp where
  status : Nat
  errMsg : String
  deriving DecidableEq, Repr

/-- Python `response.raise_for_status()`: raises an `HTTPError` for 4xx
and 5xx status codes. -/
def raiseForStatus (r : HttpResp) : Except IICSExc Unit :=
  if 400 ≤ r.status ∧ r.status < 600 then .error (.httpError r.status r.errMsg)
  else .ok ()

/-- The candidate loop of `IICSClient._core_v3_request`: try each base in
order, remembering the `HTTPError` of a 404 and moving on, raising any
other `raise_for_status` error immediately, and returning the first
non-error response; when the candidates are exhausted, re-raise the last
404 error (or an `IICSPullError` when there was none). -/
def core_v3_request_go (respond : String → HttpResp) (path : String) :
    List String → Option IICSExc → Except IICSExc HttpResp
  | [], some e => .error e
  | [], none => .error (.pullError ("Core v3 request failed for " ++ path) none)
  | base :: rest, _last =>
    let r := respond (base ++ path)
    if r.status == 404 then
      core_v3_request_go respond path rest (some (.httpError r.status r.errMsg))
    else
      match raiseForStatus r with
      | .error e => .error e
      | .ok _ => .ok r

/-- `IICSClient._core_v3_request`, with the network modelled as a map
from the full request URL to the response it returns. -/
def core_v3_request (pod_url : Option String) (respond : String → HttpResp)
    (path : String) : Except IICSExc HttpResp :=
  match core_v3_base_urls pod_url with
  | .error e => .error e
  | .ok bases => core_v3_request_go respond path bases none

/-- Python `str(e)` for the modelled exceptions: the message they were
constructed with. -/
def excMessage : IICSExc → String
  | .configError m => m
  | .authenticationError m => m
  | .pullError m _ => m
  | .jobError m _ _ => m
  | .httpError _ m => m
  | .requestException m => m

/-- The outcome of a tenacity-wrapped call: the final result, the number
of attempts made, the number of network interactions consumed, and the
backoff waits (in seconds) slept between attempts. -/
structure RetryOutcome (α : Type) where
  result : Except IICSExc α
  attempts : Nat
  calls : Nat
  waits : List Nat
  deriving Repr

/-- `wait_exponential(multiplier=1, min=2, max=10)`: the wait after
attempt `attemptNumber` is `multiplier * 2 ^ attemptNumber`, clamped to
the interval `[min, max]`. -/
def tenacityWait (attemptNumber : Nat) : Nat :=
  min 10 (max 2 (2 ^ attemptNumber))

/-- Attempt loop of a tenacity `@retry(... reraise=True)` decorator:
run the call; on an exception matching the retry condition, sleep the
exponential-backoff wait and try again while attempts remain; otherwise
re-raise.  `fuel` is the number of attempts still allowed after the
current one; `run` maps the attempt number to that attempt's outcome and
the number of network interactions it consumed. -/
def tenacityGo (shouldRetry : IICSExc → Bool) (run : Nat → Except IICSExc α × Nat)
    (attemptNo : Nat) : Nat → RetryOutcome α
  | 0 =>
    let r := run attemptNo
    ⟨r.1, 1, r.2, []⟩
  | fuel + 1 =>
    let r := run attemptNo
    match r.1 with
    | .ok a => ⟨.ok a, 1, r.2, []⟩
    | .error e =>
      if shouldRetry e then
        let rest := tenacityGo shouldRetry run (attemptNo + 1) fuel
        ⟨rest.result, rest.attempts + 1, rest.calls + r.2, tenacityWait attemptNo :: rest.waits⟩
      else ⟨.error e, 1, r.2, []⟩

/-- A tenacity `@retry(stop=stop_after_attempt(maxAttempts), ...,
reraise=True)` decorator applied to `run`. -/
def tenacityRun (maxAttempts : Nat) (shouldRetry : IICSExc → Bool)
    (run : Nat → Except IICSExc α × Nat) : RetryOutcome α :=
  tenacityGo shouldRetry run 1 (maxAttempts - 1)

/-- The fields of `IICSClient` (headers are derived, see `initHeaders`). -/
structure IICSClient where
  login_url : Option String
  pod_url : Option String
  username : Option String
  password : Option String
  session_id : Option String
  deriving DecidableEq, Repr

/-- Headers built by `IICSClient.__init__`: the content type always, and
the two session-id header variants once a truthy session id is set. -/
def initHeaders (session_id : Option String) : List (String × String) :=
  [("Content-Type", "application/json; charset=utf-8")] ++
    (if strTruthy session_id then
      [("INFA-SESSION-ID", session_id.getD ""), ("icSessionId", session_id.getD "")]
    else [])

/-- `data['userInfo']['sessionId']` of a successful login response (the
keys are accessed unconditionally; a response lacking them would be an
uncaught `KeyError`, which no claim exercises). -/
structure LoginJson where
  sessionId : String
  deriving DecidableEq, Repr

/-- Outcome of the `requests.post` + `raise_for_status` pair inside
`login`: either some `requests.RequestException` was raised (transient
transport failure or HTTP error status), or a parsed body came back. -/
inductive LoginNet where
  | exc (message : String)
  | ok (data : LoginJson)
  deriving DecidableEq, Repr

/-- One attempt of the body of `IICSClient.login` (the code inside the
`@retry` decorator): the credential check, then the post; a raised
`RequestException` is caught and re-raised as
`IICSAuthenticationError` — so no `RequestException` ever escapes one
attempt.  Returns the outcome and the number of network calls issued. -/
def login_attempt (cfg : IICSClient) (net : LoginNet) :
    Except IICSExc (String × IICSClient) × Nat :=
  if !(strTruthy cfg.login_url && strTruthy cfg.username && strTruthy cfg.password) then
    (.error (.configError "Login URL, username, and password are required for login."), 0)
  else
    match net with
    | .exc m => (.error (.authenticationError ("Failed to authenticate: " ++ m)), 1)
    | .ok data =>
      (.ok (data.sessionId, { cfg with session_id := some data.sessionId }), 1)

/-- `IICSClient.login`: the attempt body under its
`@retry(stop=stop_after_attempt(3), wait=wait_exponential(multiplier=1,
min=2, max=10), retry=retry_if_exception_type(requests.RequestException),
reraise=True)` decorator.  `net n` is the transport outcome the n-th
attempt would observe. -/
def login (cfg : IICSClient) (net : Nat → LoginNet) :
    RetryOutcome (String × IICSClient) :=
  tenacityRun 3 isRequestException (fun n => login_attempt cfg (net n))

/-- Events of a polling loop: a fixed-interval sleep and a status fetch. -/
inductive PollEvent where
  | sleep (seconds : Nat)
  | fetch
  deriving BEq, DecidableEq, Repr

/-- The code after the loop of `_wait_for_pull_completion`:
`if status != 'SUCCESSFUL': raise IICSPullError(..., pull_status=status)`. -/
def pull_terminal (status : String) : List PollEvent × Option (Except IICSExc Unit) :=
  if !(status == "SUCCESSFUL") then
    ([], some (.error (.pullError ("Pull failed with status: " ++ status) (some status))))
  else ([], some (.ok ()))

/-- `IICSClient._wait_for_pull_completion` loop body, carrying the
current `status`.  Each poll element is the outcome of one
`_core_v3_request("GET", sourceControlAction/{id})` round: a raised
exception or the extracted `data['status']['state']` string.  Returns
the event trace and the result; `none` means the supplied responses ran
out while the loop was still going. -/
def wait_for_pull_completion_go (status : String) :
    List (Except IICSExc String) → List PollEvent × Option (Except IICSExc Unit)
  | [] => if status == "IN_PROGRESS" then ([], none) else pull_terminal status
  | p :: rest =>
    if status == "IN_PROGRESS" then
      match p with
      | .error e => ([.sleep 10, .fetch], some (.error e))
      | .ok s =>
        let r := wait_for_pull_completion_go s rest
        (.sleep 10 :: .fetch :: r.1, r.2)
    else pull_terminal status

/-- `IICSClient._wait_for_pull_completion`: the loop started with
`status = 'IN_PROGRESS'`. -/
def wait_for_pull_completion (polls : List (Except IICSExc String)) :
    List PollEvent × Option (Except IICSExc Unit) :=
  wait_for_pull_completion_go "IN_PROGRESS" polls

/-- One entry of the activity-log response: `state` is accessed as a
required key, `objectName` and `errorMsg` via `.get`. -/
structure ActivityEntry where
  state : Int
  objectName : Option String
  errorMsg : Option String
  deriving DecidableEq, Repr

/-- The code after the loop of `_wait_for_job_completion`: success for
state 1, otherwise an `IICSJobError` built from the loop's final state
and the first entry of the last activity log (`errorMsg` is read and
logged there but not passed to the exception, whose constructor stores
only `job_state` and `object_name`). -/
def job_terminal (state : Int) (lastEntry : Option ActivityEntry) :
    List PollEvent × Option (Except IICSExc Int) :=
  if !(state == 1) then
    let object_name := match lastEntry with
      | some e => e.objectName.getD "Unknown"
      | none => "Unknown"
    ([], some (.error (.jobError ("Job failed with state " ++ toString state)
      (some state) (some object_name))))
  else ([], some (.ok 0))

/-- `IICSClient._wait_for_job_completion` loop body, carrying the current
`state` and the first entry of the last non-empty activity log (the
Python `activity_log[0]` read after the loop).  Each fetch element is
one activity-log round: a raised exception or the decoded entry list.
Returns the event trace and the result; `none` means the supplied
responses ran out while the loop was still going. -/
def wait_for_job_completion_go (state : Int) (lastEntry : Option ActivityEntry) :
    List (Except IICSExc (List ActivityEntry)) → List PollEvent × Option (Except IICSExc Int)
  | [] => if state == 0 then ([], none) else job_terminal state lastEntry
  | f :: rest =>
    if state == 0 then
      match f with
      | .error e => ([.sleep 20, .fetch], some (.error e))
      | .ok [] =>
        let r := wait_for_job_completion_go state lastEntry rest
        (.sleep 20 :: .fetch :: r.1, r.2)
      | .ok (entry :: _) =>
        let r := wait_for_job_completion_go entry.state (some entry) rest
        (.sleep 20 :: .fetch :: r.1, r.2)
    else job_terminal state lastEntry

/-- `IICSClient._wait_for_job_completion`: the loop started with
`state = 0` and no activity log seen yet. -/
def wait_for_job_completion (fetches : List (Except IICSExc (List ActivityEntry))) :
    List PollEvent × Option (Except IICSExc Int) :=
  wait_for_job_completion_go 0 none fetches

/-- `job_data.get('runId')` of the job-start response. -/
structure JobStartJson where
  runId : Option Int
  deriving DecidableEq, Repr

/-- Python truthiness of the optional integer `runId`
(`if not run_id:`): `None` and `0` are falsy. -/
def intTruthy : Option Int → Bool
  | none => false
  | some n => !(n == 0)

/-- `IICSClient.run_job`: credential check, job-start post (whose
`raise_for_status` failure is re-raised unchanged), `runId` extraction,
then the activity-log polling loop.  Returns the outcome (`none` when
the supplied poll responses ran out) and the number of network
interactions consumed. -/
def run_job (cfg : IICSClient) (startResp : Except IICSExc JobStartJson)
    (fetches : List (Except IICSExc (List ActivityEntry))) :
    Option (Except IICSExc Int) × Nat :=
  if !(strTruthy cfg.pod_url && strTruthy cfg.session_id) then
    (some (.error (.configError "Pod URL and Session ID are required.")), 0)
  else
    match api_v2_base_url cfg.pod_url with
    | .error e => (some (.error e), 0)
    | .ok _base =>
      match startResp with
      | .error e => (some (.error e), 1)
      | .ok job_data =>
        if !(intTruthy job_data.runId) then
          (some (.error (.jobError "Could not retrieve runId from job start response" none none)), 1)
        else
          let r := wait_for_job_completion fetches
          (r.2, 1 + r.1.count .fetch)

/-- One element of `data.get('changes', [])` of the commit-inspection
response; `id` and `type` are both read via `.get`. -/
structure CommitChange where
  id : Option String
  type : Option String
  deriving DecidableEq, Repr

/-- The commit-inspection response body. -/
structure CommitJson where
  changes : Option (List CommitChange)
  deriving DecidableEq, Repr

/-- One attempt of the body of `IICSClient.get_commit_objects`:
credential check, commit fetch, then the optional truthiness-guarded
type filter. -/
def get_commit_objects_attempt (cfg : IICSClient)
    (resp : Except IICSExc CommitJson) (resource_type_filter : Option String) :
    Except IICSExc (List CommitChange) × Nat :=
  if !(strTruthy cfg.pod_url && strTruthy cfg.session_id) then
    (.error (.configError "Pod URL and Session ID are required."), 0)
  else
    match resp with
    | .error e => (.error e, 1)
    | .ok data =>
      let changes := data.changes.getD []
      if strTruthy resource_type_filter then
        (.ok (changes.filter (fun x => x.type == resource_type_filter)), 1)
      else
        (.ok changes, 1)

/-- `IICSClient.get_commit_objects` under its `@retry` decorator
(3 attempts, exponential backoff, retried only on
`requests.RequestException`). -/
def get_commit_objects (cfg : IICSClient) (resp : Nat → Except IICSExc CommitJson)
    (resource_type_filter : Option String) : RetryOutcome (List CommitChange) :=
  tenacityRun 3 isRequestException
    (fun n => get_commit_objects_attempt cfg (resp n) resource_type_filter)

/-- `pull_json['pullActionId']` of a pull-start response (a required
key; its value selects the status URL polled afterwards, which the model
folds into the supplied poll responses). -/
structure PullStartJson where
  pullActionId : String
  deriving DecidableEq, Repr

/-- The id-collection loop of `IICSClient.pull_by_commit_objects`:
`obj_id = obj.get('id'); if obj_id: object_ids.append(obj_id)` — entries
with a missing or empty `id` contribute nothing. -/
def collect_object_ids (objects : List CommitChange) : List String :=
  objects.filterMap (fun obj => obj.id.bind (fun i => if i == "" then none else some i))

/-- `IICSClient.pull_by_commit_objects` (fallback sync): get the commit
objects (through the decorated `get_commit_objects`), collect the truthy
ids, fail when none, then post the explicit `/pull` body — `pullResp`
maps the collected id list of the issued request to its outcome — and
poll the action.  Exceptions propagate unwrapped (this method has no
`try`/`except` of its own). -/
def pull_by_commit_objects (cfg : IICSClient) (commit_hash : String)
    (commitResp : Nat → Except IICSExc CommitJson)
    (pullResp : List String → Except IICSExc PullStartJson)
    (polls : List (Except IICSExc String)) :
    Option (Except IICSExc Unit) × Nat :=
  let gco := get_commit_objects cfg commitResp none
  match gco.result with
  | .error e => (some (.error e), gco.calls)
  | .ok objects =>
    let object_ids := collect_object_ids objects
    if object_ids.isEmpty then
      (some (.error (.pullError ("No object IDs found in commit " ++ commit_hash ++ " to pull.") none)),
        gco.calls)
    else
      match pullResp object_ids with
      | .error e => (some (.error e), gco.calls + 1)
      | .ok _pull_json =>
        let r := wait_for_pull_completion polls
        (r.2, gco.calls + 1 + r.1.count .fetch)

/-- The per-attempt network environment of `IICSClient.pull_by_commit`:
the bulk `pullByCommitHash` outcome, its poll responses, and the inputs
of the fallback path. -/
structure PullByCommitEnv where
  bulkResp : Except IICSExc PullStartJson
  bulkPolls : List (Except IICSExc String)
  commitResp : Nat → Except IICSExc CommitJson
  fallbackPull : List String → Except IICSExc PullStartJson
  fallbackPolls : List (Except IICSExc String)

/-- One attempt of the body of `IICSClient.pull_by_commit`: credential
check; `try` the bulk post and its poll; `except requests.HTTPError`
with a 404 response falls back to `pull_by_commit_objects` (whose
exceptions propagate unwrapped from the handler); every other exception
from the `try` block is wrapped into `IICSPullError` (losing any
`pull_status` the original carried). -/
def pull_by_commit_attempt (cfg : IICSClient) (commit_hash : String)
    (env : PullByCommitEnv) : Option (Except IICSExc Unit) × Nat :=
  if !(strTruthy cfg.pod_url && strTruthy cfg.session_id) then
    (some (.error (.configError "Pod URL and Session ID are required.")), 0)
  else
    let tryRes : Option (Except IICSExc Unit) × Nat :=
      match env.bulkResp with
      | .error e => (some (.error e), 1)
      | .ok _pull_json =>
        let r := wait_for_pull_completion env.bulkPolls
        (r.2, 1 + r.1.count .fetch)
    match tryRes.1 with
    | none => (none, tryRes.2)
    | some (.ok _) => (some (.ok ()), tryRes.2)
    | some (.error e) =>
      match e with
      | .httpError 404 _ =>
        let fb := pull_by_commit_objects cfg commit_hash env.commitResp
          env.fallbackPull env.fallbackPolls
        (fb.1, tryRes.2 + fb.2)
      | _ =>
        (some (.error (.pullError
          ("Failed to pull commit " ++ commit_hash ++ ": " ++ excMessage e) none)), tryRes.2)

/-- Attempt loop of the `@retry` decorator on `pull_by_commit` (same
configuration as on `login`), adapted to an attempt body whose outcome
may be undetermined (`none`) when the supplied responses run out. -/
def retryOptGo (shouldRetry : IICSExc → Bool)
    (run : Nat → Option (Except IICSExc α) × Nat) (attemptNo : Nat) :
    Nat → Option (Except IICSExc α) × Nat
  | 0 => run attemptNo
  | fuel + 1 =>
    let r := run attemptNo
    match r.1 with
    | some (.error e) =>
      if shouldRetry e then
        let rest := retryOptGo shouldRetry run (attemptNo + 1) fuel
        (rest.1, r.2 + rest.2)
      else r
    | _ => r

/-- `IICSClient.pull_by_commit` under its `@retry` decorator; `env n` is
the network environment the n-th attempt would observe. -/
def pull_by_commit (cfg : IICSClient) (commit_hash : String)
    (env : Nat → PullByCommitEnv) : Option (Except IICSExc Unit) × Nat :=
  retryOptGo isRequestException (fun n => pull_by_commit_attempt cfg commit_hash (env n)) 1 2

/-- `IICSClient.pull_by_commit_object`: credential check; `try` the
single-object `/pull` post and its poll; any exception from the `try`
block is wrapped into `IICSPullError` (losing any `pull_status` the
original carried).  This method has no `@retry` decorator. -/
def pull_by_commit_object (cfg : IICSClient) (_commit_hash object_id : String)
    (pullResp : Except IICSExc PullStartJson)
    (polls : List (Except IICSExc String)) :
    Option (Except IICSExc Unit) × Nat :=
  if !(strTruthy cfg.pod_url && strTruthy cfg.session_id) then
    (some (.error (.configError "Pod URL and Session ID are required.")), 0)
  else
    let tryRes : Option (Except IICSExc Unit) × Nat :=
      match pullResp with
      | .error e => (some (.error e), 1)
      | .ok _pull_json =>
        let r := wait_for_pull_completion polls
        (r.2, 1 + r.1.count .fetch)
    match tryRes.1 with
    | some (.error e) =>
      (some (.error (.pullError
        ("Failed to pull object " ++ object_id ++ ": " ++ excMessage e) none)), tryRes.2)
    | other => (other, tryRes.2)

/-- One entry of `commit_json['commits']`; `hash` is read as a required
key. -/
structure HistoryEntry where
  hash : String
  deriving DecidableEq, Repr

/-- The commit-history response body (`commit_json.get('commits', [])`). -/
structure HistoryJson where
  commits : Option (List HistoryEntry)
  deriving DecidableEq, Repr

/-- One entry of `object_json['objects']`; `id` is read as a required
key. -/
structure LookupObject where
  id : String
  deriving DecidableEq, Repr

/-- The lookup response body (`object_json.get('objects')`). -/
structure LookupJson where
  objects : Option (List LookupObject)
  deriving DecidableEq, Repr

/-- The network requests `rollback_mapping` can issue, in order. -/
inductive RbCall where
  | history
  | lookup
  | pullObject (commit_hash : String) (object_id : String)
  deriving DecidableEq, Repr

/-- `IICSClient.rollback_mapping`: credential check; commit-history query
(fewer than two entries is an `IICSPullError` raised before the lookup);
the hash of the history entry at index 1; the lookup (no matching object
is an `IICSPullError`); then `pull_by_commit_object(previous_hash,
object_id)`.  Besides the outcome it returns the trace of requests
issued.  This method has no `try`/`except` and no `@retry` decorator. -/
def rollback_mapping (cfg : IICSClient) (path_name mapping_name _object_type : String)
    (historyResp : Except IICSExc HistoryJson)
    (lookupResp : Except IICSExc LookupJson)
    (pullResp : Except IICSExc PullStartJson)
    (polls : List (Except IICSExc String)) :
    Option (Except IICSExc Unit) × List RbCall :=
  if !(strTruthy cfg.pod_url && strTruthy cfg.session_id) then
    (some (.error (.configError "Pod URL and Session ID are required.")), [])
  else
    match historyResp with
    | .error e => (some (.error e), [.history])
    | .ok commit_json =>
      match commit_json.commits.getD [] with
      | [] => (some (.error (.pullError "No previous commit found to rollback to." none)), [.history])
      | [_] => (some (.error (.pullError "No previous commit found to rollback to." none)), [.history])
      | _ :: c1 :: _ =>
        let previous_hash := c1.hash
        match lookupResp with
        | .error e => (some (.error e), [.history, .lookup])
        | .ok object_json =>
          match object_json.objects.getD [] with
          | [] =>
            (some (.error (.pullError
              ("Object " ++ mapping_name ++ " not found in path " ++ path_name) none)),
              [.history, .lookup])
          | o0 :: _ =>
            let object_id := o0.id
            let pr := pull_by_commit_object cfg previous_hash object_id pullResp polls
            (pr.1, [.history, .lookup, .pullObject previous_hash object_id])

/-! Helper lemmas. -/

theorem endsWithSaasL_decomp (l : List Char) (h : endsWithSaasL l = true) :
    dropSaasL l ++ "/saas".toList = l := by
  have h' : "/saas".toList.reverse <+: l.reverse :=
    List.isPrefixOf_iff_prefix.mp h
  obtain ⟨t, ht⟩ := h'
  have hl : t.reverse ++ "/saas".toList = l := by
    have h2 := congrArg List.reverse ht
    simpa using h2
  rw [← hl]
  unfold dropSaasL
  have h5 : ("/saas".toList).length = 5 := by decide
  rw [List.length_append, h5, Nat.add_sub_cancel, List.take_left]

theorem endsWithSaas_decomp (s : String) (h : endsWithSaas s = true) :
    dropSaas s ++ "/saas" = s := by
  cases s with
  | mk l =>
    have h' : endsWithSaasL l = true := h
    have hd := endsWithSaasL_decomp l h'
    calc String.mk (dropSaasL l) ++ "/saas"
        = String.mk (dropSaasL l ++ "/saas".toList) := rfl
      _ = String.mk l := by rw [hd]

theorem append_saas_ne (s : String) : (s == s ++ "/saas") = false := by
  by_contra hc
  have h : s = s ++ "/saas" := by
    have := Bool.not_eq_false (s == s ++ "/saas") |>.mp (by simpa using hc)
    exact eq_of_beq this
  have hlen := congrArg String.length h
  rw [String.length_append] at hlen
  have h5 : ("/saas").length = 5 := by decide
  omega

theorem dropSaas_ne (s : String) (h : endsWithSaas s = true) :
    (dropSaas s == s) = false := by
  by_contra hc
  have heq : dropSaas s = s := by
    have := Bool.not_eq_false (dropSaas s == s) |>.mp (by simpa using hc)
    exact eq_of_beq this
  have hd := endsWithSaas_decomp s h
  rw [heq] at hd
  have hlen := congrArg String.length hd
  rw [String.length_append] at hlen
  have h5 : ("/saas").length = 5 := by decide
  omega

/-- The claim's candidate base: the (slash-normalized) pod URL with its
trailing `/saas` suffix stripped when present. -/
def strippedPodBase (pod : String) : String :=
  let base := rstripSlash pod
  if endsWithSaas base then dropSaas base else base

theorem core_v3_base_urls_eq (pod : String) (hp : pod ≠ "") :
    core_v3_base_urls (some pod) =
      .ok [strippedPodBase pod, strippedPodBase pod ++ "/saas"] := by
  have hb : (pod == "") = false := by
    simp [hp]
  unfold core_v3_base_urls strippedPodBase
  simp only [strTruthy, hb, Option.getD_some, Bool.not_false, if_neg, Bool.not_eq_true']
  by_cases he : endsWithSaas (rstripSlash pod)
  · simp only [he, if_pos, Bool.not_true, Bool.false_eq_true, if_true]
    rw [dropSaas_ne _ he]
    simp [endsWithSaas_decomp _ he]
  · simp only [he, Bool.not_true, if_false]
    rw [append_saas_ne]
    simp [he]

/-- C5: for every core-v3 request (non-empty pod URL), the candidate
base URLs are exactly the pod URL with its trailing `/saas` suffix
stripped and, when different (they always are), the same with `/saas`
appended, tried in that order; a 404 from a candidate causes the next
candidate to be tried; any non-404 response is returned (success) or its
`raise_for_status` error raised immediately — in particular the second
candidate is never consulted then; if every candidate returns 404, the
last such HTTP error propagates. -/
theorem core_v3_resolution (pod path : String) (respond : String → HttpResp)
    (hp : pod ≠ "") :
    core_v3_base_urls (some pod) =
      .ok [strippedPodBase pod, strippedPodBase pod ++ "/saas"]
    ∧ core_v3_request (some pod) respond path =
        (let r1 := respond (strippedPodBase pod ++ path)
         let r2 := respond ((strippedPodBase pod ++ "/saas") ++ path)
         if r1.status == 404 then
           if r2.status == 404 then .error (.httpError 404 r2.errMsg)
           else if 400 ≤ r2.status ∧ r2.status < 600 then
             .error (.httpError r2.status r2.errMsg)
           else .ok r2
         else if 400 ≤ r1.status ∧ r1.status < 600 then
           .error (.httpError r1.status r1.errMsg)
         else .ok r1)
    ∧ (∀ respond' : String → HttpResp,
        respond' (strippedPodBase pod ++ path) = respond (strippedPodBase pod ++ path) →
        (respond (strippedPodBase pod ++ path)).status ≠ 404 →
        core_v3_request (some pod) respond' path =
          core_v3_request (some pod) respond path) := by
  have hurls := core_v3_base_urls_eq pod hp
  refine ⟨hurls, ?_, ?_⟩
  · unfold core_v3_request
    rw [hurls]
    unfold core_v3_request_go raiseForStatus
    by_cases h1 : (respond (strippedPodBase pod ++ path)).status == 404
    · have h1' : (respond (strippedPodBase pod ++ path)).status = 404 := by
        simpa using h1
      simp only [h1, if_true]
      unfold core_v3_request_go raiseForStatus
      by_cases h2 : (respond (strippedPodBase pod ++ "/saas" ++ path)).status == 404
      · have h2' : (respond (strippedPodBase pod ++ "/saas" ++ path)).status = 404 := by
          simpa using h2
        simp only [h2, if_true]
        unfold core_v3_request_go
        simp [h1', h2']
      · simp only [h2, if_false]
        have h2' : ((respond (strippedPodBase pod ++ "/saas" ++ path)).status == 404) = false := by
          simpa using h2
        simp only [h1, h2', h1', if_true, Bool.false_eq_true, if_false]
        by_cases hc : 400 ≤ (respond (strippedPodBase pod ++ "/saas" ++ path)).status ∧
            (respond (strippedPodBase pod ++ "/saas" ++ path)).status < 600
        · simp [hc]
        · simp [hc]
    · have h1' : ((respond (strippedPodBase pod ++ path)).status == 404) = false := by
        simpa using h1
      simp only [h1', Bool.false_eq_true, if_false]
      by_cases hc : 400 ≤ (respond (strippedPodBase pod ++ path)).status ∧
          (respond (strippedPodBase pod ++ path)).status < 600
      · simp [hc]
      · simp [hc]
  · intro respond' heq h404
    unfold core_v3_request
    rw [hurls]
    unfold core_v3_request_go
    have h1' : ((respond (strippedPodBase pod ++ path)).status == 404) = false := by
      simpa using h404
    rw [heq]
    simp [h1']

theorem core_v3_resolution_witness :
    core_v3_base_urls (some "https://pod.example/saas") =
      .ok ["https://pod.example", "https://pod.example/saas"]
    ∧ core_v3_request (some "https://pod.example/saas")
        (fun _ => ⟨200, "OK"⟩) "/public/core/v3/pull" = .ok ⟨200, "OK"⟩ := by
  have h := core_v3_resolution "https://pod.example/saas" "/public/core/v3/pull"
    (fun _ => ⟨200, "OK"⟩) (by decide)
  exact ⟨h.1.trans (by rfl), h.2.1.trans (by rfl)⟩

/-- C7: given the pull-status sequence IN_PROGRESS, IN_PROGRESS,
SUCCESSFUL, the pull poller performs exactly 3 status fetches, each
preceded by the configured fixed 10-second delay, and then returns
without raising. -/
theorem pull_poller_three_fetches :
    wait_for_pull_completion [.ok "IN_PROGRESS", .ok "IN_PROGRESS", .ok "SUCCESSFUL"] =
      ([.sleep 10, .fetch, .sleep 10, .fetch, .sleep 10, .fetch], some (.ok ()))
    ∧ (wait_for_pull_completion
        [.ok "IN_PROGRESS", .ok "IN_PROGRESS", .ok "SUCCESSFUL"]).1.count PollEvent.fetch = 3 := by
  constructor <;> rfl

/-- A client holding login credentials only, as a login call site
configures it. -/
def cfgLoginOnly : IICSClient :=
  ⟨some "https://dm-us.informaticacloud.com", none, some "ci-user", some "ci-pass", none⟩

/-- C1 (evidence of the code bug): with loginURL, username and password
all set and a transport whose every attempt raises a transient
RequestException, login makes exactly ONE attempt, sleeps no backoff,
and raises AuthenticationError — not the 3 attempts with exponential
backoff its own `@retry(stop=stop_after_attempt(3), ...)` decorator
configures, because the body converts the RequestException into
IICSAuthenticationError before the decorator's
`retry_if_exception_type(requests.RequestException)` condition can
match it. -/
theorem login_transport_failure_single_attempt :
    login cfgLoginOnly (fun _ => .exc "Connection failed") =
      ⟨.error (.authenticationError "Failed to authenticate: Connection failed"), 1, 1, []⟩ := by
  rfl

/-- A client holding an authenticated session, as the pipeline scripts
configure it after login. -/
def cfgAuthed : IICSClient :=
  ⟨none, some "https://usw3.dm-us.informaticacloud.com/saas", none, none, some "session-123"⟩

/-- C2 counterexample: polling an activity log whose first entry has
terminal state 2, objectName "TestMapping1" and errorMsg "Connection
timeout" raises a JobError carrying the state code and the object name —
but the server error message "Connection timeout" appears in none of the
JobError's fields (`IICSJobError.__init__` stores only `message`,
`job_state` and `object_name`; `errorMsg` is only logged), so the claim
that the JobError carries the server error message is false. -/
theorem run_job_drops_error_msg_cex :
    run_job cfgAuthed (.ok ⟨some 5⟩)
        [.ok [⟨2, some "TestMapping1", some "Connection timeout"⟩]] =
      (some (.error (.jobError "Job failed with state 2" (some 2) (some "TestMapping1"))), 2)
    ∧ ¬ ("Connection timeout".toList <:+: "Job failed with state 2".toList)
    ∧ "TestMapping1" ≠ "Connection timeout" := by
  refine ⟨by rfl, by decide, by decide⟩

theorem wait_job_go_nonzero (state : Int) (lastEntry : Option ActivityEntry)
    (fetches : List (Except IICSExc (List ActivityEntry))) (h : state ≠ 0) :
    wait_for_job_completion_go state lastEntry fetches = job_terminal state lastEntry := by
  cases fetches <;> simp [wait_for_job_completion_go, h]

/-- C2 (amended): during job polling, if the first activity-log entry
carries a terminal state other than 0 and 1, runJob raises a JobError
carrying that state code and the entry's object name (its message is
"Job failed with state {state}"); the entry's server error message is
logged but not carried on the JobError; if the first terminal state is
1, runJob returns success (0). -/
theorem run_job_first_terminal_state (cfg : IICSClient) (j : JobStartJson)
    (e : ActivityEntry) (tl : List ActivityEntry)
    (rest : List (Except IICSExc (List ActivityEntry)))
    (hpod : strTruthy cfg.pod_url = true) (hsid : strTruthy cfg.session_id = true)
    (hrun : intTruthy j.runId = true) :
    (e.state = 1 →
      run_job cfg (.ok j) (.ok (e :: tl) :: rest) = (some (.ok 0), 2))
    ∧ (e.state ≠ 0 → e.state ≠ 1 →
      run_job cfg (.ok j) (.ok (e :: tl) :: rest) =
        (some (.error (.jobError ("Job failed with state " ++ toString e.state)
          (some e.state) (some (e.objectName.getD "Unknown")))), 2)) := by
  obtain ⟨b, hb⟩ : ∃ b, api_v2_base_url cfg.pod_url = .ok b := by
    unfold api_v2_base_url
    simp only [hpod, Bool.not_true, Bool.false_eq_true, if_false]
    by_cases he : endsWithSaas (rstripSlash (cfg.pod_url.getD ""))
    · exact ⟨dropSaas (rstripSlash (cfg.pod_url.getD "")), by simp [he]⟩
    · exact ⟨rstripSlash (cfg.pod_url.getD ""), by simp [he]⟩
  constructor
  · intro h1
    unfold run_job wait_for_job_completion
    rw [hb]
    simp only [hpod, hsid, Bool.and_self, Bool.not_true, Bool.false_eq_true, if_false, hrun,
      wait_for_job_completion_go]
    have : e.state ≠ 0 := by rw [h1]; decide
    rw [wait_job_go_nonzero e.state (some e) rest this]
    simp [job_terminal, h1]
    decide
  · intro h0 h1
    unfold run_job wait_for_job_completion
    rw [hb]
    simp only [hpod, hsid, Bool.and_self, Bool.not_true, Bool.false_eq_true, if_false, hrun,
      wait_for_job_completion_go]
    rw [wait_job_go_nonzero e.state (some e) rest h0]
    simp [job_terminal, h1]
    decide

theorem run_job_first_terminal_state_witness :
    run_job cfgAuthed (.ok ⟨some 5⟩) [.ok [⟨1, none, none⟩]] = (some (.ok 0), 2)
    ∧ run_job cfgAuthed (.ok ⟨some 5⟩) [.ok [⟨2, some "TestMapping2", some "boom"⟩]] =
      (some (.error (.jobError "Job failed with state 2" (some 2) (some "TestMapping2"))), 2) := by
  have h1 := run_job_first_terminal_state cfgAuthed ⟨some 5⟩ ⟨1, none, none⟩ [] []
    (by rfl) (by rfl) (by rfl)
  have h2 := run_job_first_terminal_state cfgAuthed ⟨some 5⟩ ⟨2, some "TestMapping2", some "boom"⟩ [] []
    (by rfl) (by rfl) (by rfl)
  exact ⟨h1.1 rfl, (h2.2 (by decide) (by decide)).trans (by rfl)⟩

theorem wait_job_go_zero_result (fetches : List (Except IICSExc (List ActivityEntry))) :
    ∀ (lastEntry : Option ActivityEntry) (r : Except IICSExc Int),
    (wait_for_job_completion_go 0 lastEntry fetches).2 = some r →
    (∃ e, r = .error e ∧ Except.error e ∈ fetches)
    ∨ (∃ entry tl, Except.ok (entry :: tl) ∈ fetches ∧ entry.state ≠ 0 ∧
        ((entry.state = 1 ∧ r = .ok 0)
         ∨ (entry.state ≠ 1 ∧ r = .error (.jobError
              ("Job failed with state " ++ toString entry.state)
              (some entry.state) (some (entry.objectName.getD "Unknown")))))) := by
  induction fetches with
  | nil =>
    intro lastEntry r h
    simp [wait_for_job_completion_go] at h
  | cons f rest ih =>
    intro lastEntry r h
    match f with
    | .error e =>
      simp [wait_for_job_completion_go] at h
      exact .inl ⟨e, h.symm, List.mem_cons_self _ _⟩
    | .ok [] =>
      simp only [wait_for_job_completion_go, beq_self_eq_true, if_true] at h
      rcases ih lastEntry r h with ⟨e, he, hm⟩ | ⟨entry, tl, hm, hs, hc⟩
      · exact .inl ⟨e, he, List.mem_cons_of_mem _ hm⟩
      · exact .inr ⟨entry, tl, List.mem_cons_of_mem _ hm, hs, hc⟩
    | .ok (entry :: tl) =>
      simp only [wait_for_job_completion_go, beq_self_eq_true, if_true] at h
      by_cases hs : entry.state = 0
      · rw [hs] at h
        rcases ih (some entry) r h with ⟨e, he, hm⟩ | ⟨entry', tl', hm, hs', hc⟩
        · exact .inl ⟨e, he, List.mem_cons_of_mem _ hm⟩
        · exact .inr ⟨entry', tl', List.mem_cons_of_mem _ hm, hs', hc⟩
      · rw [wait_job_go_nonzero entry.state (some entry) rest hs] at h
        unfold job_terminal at h
        by_cases h1 : entry.state = 1
        · simp only [h1] at h
          simp at h
          exact .inr ⟨entry, tl, List.mem_cons_self _ _, hs, .inl ⟨h1, h.symm⟩⟩
        · simp only [h1] at h
          simp [h1] at h
          exact .inr ⟨entry, tl, List.mem_cons_self _ _, hs, .inr ⟨h1, h.symm⟩⟩

/-- C8: during job polling an empty activity-log response is never
terminal — the polling loop continues with the same state, so the
result is unchanged by a prefixed empty response — and a job result
(success or JobError), when it is not a propagated fetch exception, is
only ever produced from a delivered non-empty activity log whose first
entry has a non-zero state. -/
theorem job_poller_empty_not_terminal :
    (∀ rest, (wait_for_job_completion (.ok [] :: rest)).2 = (wait_for_job_completion rest).2)
    ∧ (∀ fetches r, (wait_for_job_completion fetches).2 = some r →
        (∃ e, r = .error e ∧ Except.error e ∈ fetches)
        ∨ (∃ entry tl, Except.ok (entry :: tl) ∈ fetches ∧ entry.state ≠ 0 ∧
            ((entry.state = 1 ∧ r = .ok 0)
             ∨ (entry.state ≠ 1 ∧ r = .error (.jobError
                  ("Job failed with state " ++ toString entry.state)
                  (some entry.state) (some (entry.objectName.getD "Unknown"))))))) := by
  constructor
  · intro rest
    simp [wait_for_job_completion, wait_for_job_completion_go]
  · intro fetches r h
    exact wait_job_go_zero_result fetches none r h

theorem job_poller_empty_not_terminal_witness :
    (∃ e, (Except.ok 0 : Except IICSExc Int) = .error e ∧
      Except.error e ∈ ([.ok [], .ok [⟨1, none, none⟩]] : List (Except IICSExc (List ActivityEntry))))
    ∨ (∃ entry tl, Except.ok (entry :: tl) ∈
        ([.ok [], .ok [⟨1, none, none⟩]] : List (Except IICSExc (List ActivityEntry)))
        ∧ entry.state ≠ 0 ∧
        ((entry.state = 1 ∧ (Except.ok 0 : Except IICSExc Int) = .ok 0)
         ∨ (entry.state ≠ 1 ∧ (Except.ok 0 : Except IICSExc Int) = .error (.jobError
              ("Job failed with state " ++ toString entry.state)
              (some entry.state) (some (entry.objectName.getD "Unknown")))))) :=
  job_poller_empty_not_terminal.2 [.ok [], .ok [⟨1, none, none⟩]] (.ok 0) (by rfl)

theorem strTruthy_none : strTruthy none = false := rfl

theorem bnot_and2 {a b : Bool} (h : ¬(a = true ∧ b = true)) : (a && b) = false := by
  cases a <;> cases b <;> simp_all

theorem bnot_and3 {a b c : Bool} (h : ¬(a = true ∧ b = true ∧ c = true)) :
    (a && b && c) = false := by
  cases a <;> cases b <;> cases c <;> simp_all

/-- C6: for every combination of missing required fields the operation
fails with ConfigurationError having consumed zero network interactions:
login requires loginURL, username and password; pullByCommit,
pullByCommitObject, getCommitObjects, runJob and rollback each require
podURL and sessionID non-empty (Python-falsy, that is missing or empty,
fields fail the check). -/
theorem config_checks_before_network :
    (∀ (cfg : IICSClient) (net : Nat → LoginNet),
      ¬(strTruthy cfg.login_url = true ∧ strTruthy cfg.username = true ∧
          strTruthy cfg.password = true) →
      login cfg net =
        ⟨.error (.configError "Login URL, username, and password are required for login."),
          1, 0, []⟩)
    ∧ (∀ (cfg : IICSClient) (commit_hash : String) (env : Nat → PullByCommitEnv),
      ¬(strTruthy cfg.pod_url = true ∧ strTruthy cfg.session_id = true) →
      pull_by_commit cfg commit_hash env =
        (some (.error (.configError "Pod URL and Session ID are required.")), 0))
    ∧ (∀ (cfg : IICSClient) (ch oid : String) (pullResp : Except IICSExc PullStartJson)
        (polls : List (Except IICSExc String)),
      ¬(strTruthy cfg.pod_url = true ∧ strTruthy cfg.session_id = true) →
      pull_by_commit_object cfg ch oid pullResp polls =
        (some (.error (.configError "Pod URL and Session ID are required.")), 0))
    ∧ (∀ (cfg : IICSClient) (resp : Nat → Except IICSExc CommitJson) (filt : Option String),
      ¬(strTruthy cfg.pod_url = true ∧ strTruthy cfg.session_id = true) →
      get_commit_objects cfg resp filt =
        ⟨.error (.configError "Pod URL and Session ID are required."), 1, 0, []⟩)
    ∧ (∀ (cfg : IICSClient) (startResp : Except IICSExc JobStartJson)
        (fetches : List (Except IICSExc (List ActivityEntry))),
      ¬(strTruthy cfg.pod_url = true ∧ strTruthy cfg.session_id = true) →
      run_job cfg startResp fetches =
        (some (.error (.configError "Pod URL and Session ID are required.")), 0))
    ∧ (∀ (cfg : IICSClient) (pn mn ot : String) (hResp : Except IICSExc HistoryJson)
        (lResp : Except IICSExc LookupJson) (pResp : Except IICSExc PullStartJson)
        (polls : List (Except IICSExc String)),
      ¬(strTruthy cfg.pod_url = true ∧ strTruthy cfg.session_id = true) →
      rollback_mapping cfg pn mn ot hResp lResp pResp polls =
        (some (.error (.configError "Pod URL and Session ID are required.")), [])) := by
  refine ⟨?_, ?_, ?_, ?_, ?_, ?_⟩
  · intro cfg net h
    have hb : (strTruthy cfg.login_url && strTruthy cfg.username && strTruthy cfg.password)
        = false := bnot_and3 h
    simp [login, tenacityRun, tenacityGo, login_attempt, hb, isRequestException]
  · intro cfg commit_hash env h
    have hb := bnot_and2 h
    simp [pull_by_commit, retryOptGo, pull_by_commit_attempt, hb, isRequestException]
  · intro cfg ch oid pullResp polls h
    have hb := bnot_and2 h
    simp [pull_by_commit_object, hb]
  · intro cfg resp filt h
    have hb := bnot_and2 h
    simp [get_commit_objects, tenacityRun, tenacityGo, get_commit_objects_attempt, hb,
      isRequestException]
  · intro cfg startResp fetches h
    have hb := bnot_and2 h
    simp [run_job, hb]
  · intro cfg pn mn ot hResp lResp pResp polls h
    have hb := bnot_and2 h
    simp [rollback_mapping, hb]

theorem config_checks_before_network_witness :
    login ⟨some "https://login.example", none, none, some "pw", none⟩ (fun _ => .exc "boom") =
      ⟨.error (.configError "Login URL, username, and password are required for login."),
        1, 0, []⟩
    ∧ run_job ⟨none, none, none, none, none⟩ (.ok ⟨some 1⟩) [] =
      (some (.error (.configError "Pod URL and Session ID are required.")), 0) :=
  ⟨config_checks_before_network.1 _ _ (by decide),
   config_checks_before_network.2.2.2.2.1 _ _ _ (by decide)⟩

/-- C3: on an authenticated session, rollback with a commit history of
fewer than 2 entries raises PullError with the lookup endpoint never
called (the request trace is just the history query); with 2 or more
entries it takes the hash of the history entry at index 1, raises
PullError when the lookup returns no matching object, and otherwise
issues pullByCommitObject with that previous hash and the id of the
first returned object. -/
theorem rollback_resolution (cfg : IICSClient) (path_name mapping_name object_type : String)
    (pullResp : Except IICSExc PullStartJson) (polls : List (Except IICSExc String))
    (hpod : strTruthy cfg.pod_url = true) (hsid : strTruthy cfg.session_id = true) :
    (∀ (hist : HistoryJson) (lookupResp : Except IICSExc LookupJson),
      (hist.commits.getD []).length < 2 →
      rollback_mapping cfg path_name mapping_name object_type (.ok hist) lookupResp
          pullResp polls =
        (some (.error (.pullError "No previous commit found to rollback to." none)),
          [.history]))
    ∧ (∀ (c0 c1 : HistoryEntry) (cs : List HistoryEntry) (lj : LookupJson),
      lj.objects.getD [] = [] →
      rollback_mapping cfg path_name mapping_name object_type (.ok ⟨some (c0 :: c1 :: cs)⟩)
          (.ok lj) pullResp polls =
        (some (.error (.pullError
          ("Object " ++ mapping_name ++ " not found in path " ++ path_name) none)),
          [.history, .lookup]))
    ∧ (∀ (c0 c1 : HistoryEntry) (cs : List HistoryEntry) (lj : LookupJson)
        (o0 : LookupObject) (os : List LookupObject),
      lj.objects.getD [] = o0 :: os →
      rollback_mapping cfg path_name mapping_name object_type (.ok ⟨some (c0 :: c1 :: cs)⟩)
          (.ok lj) pullResp polls =
        ((pull_by_commit_object cfg c1.hash o0.id pullResp polls).1,
          [.history, .lookup, .pullObject c1.hash o0.id])) := by
  have hb : (strTruthy cfg.pod_url && strTruthy cfg.session_id) = true := by
    rw [hpod, hsid]; rfl
  refine ⟨?_, ?_, ?_⟩
  · intro hist lookupResp hlt
    match hc : hist.commits.getD [] with
    | [] => simp [rollback_mapping, hb, hc]
    | [c] => simp [rollback_mapping, hb, hc]
    | c0 :: c1 :: cs =>
      exact absurd hlt (by rw [hc]; simp only [List.length_cons]; omega)
  · intro c0 c1 cs lj hempty
    simp [rollback_mapping, hb, hempty]
  · intro c0 c1 cs lj o0 os hobjs
    simp [rollback_mapping, hb, hobjs]

theorem rollback_resolution_witness :
    rollback_mapping cfgAuthed "Project/Main" "m_orders" "DTEMPLATE"
        (.ok ⟨some [⟨"hash-0"⟩]⟩) (.ok ⟨some [⟨"obj-9"⟩]⟩) (.ok ⟨"pa-1"⟩) [.ok "SUCCESSFUL"] =
      (some (.error (.pullError "No previous commit found to rollback to." none)), [.history])
    ∧ rollback_mapping cfgAuthed "Project/Main" "m_orders" "DTEMPLATE"
        (.ok ⟨some [⟨"hash-0"⟩, ⟨"hash-1"⟩]⟩) (.ok ⟨some [⟨"obj-9"⟩]⟩) (.ok ⟨"pa-1"⟩)
        [.ok "SUCCESSFUL"] =
      ((pull_by_commit_object cfgAuthed "hash-1" "obj-9" (.ok ⟨"pa-1"⟩) [.ok "SUCCESSFUL"]).1,
        [.history, .lookup, .pullObject "hash-1" "obj-9"]) := by
  have h := rollback_resolution cfgAuthed "Project/Main" "m_orders" "DTEMPLATE"
    (.ok ⟨"pa-1"⟩) [.ok "SUCCESSFUL"] (by rfl) (by rfl)
  exact ⟨h.1 ⟨some [⟨"hash-0"⟩]⟩ (.ok ⟨some [⟨"obj-9"⟩]⟩) (by decide),
    h.2.2 ⟨"hash-0"⟩ ⟨"hash-1"⟩ [] ⟨some [⟨"obj-9"⟩]⟩ ⟨"obj-9"⟩ [] (by decide)⟩

/-- C9 counterexample: with the empty string as the type filter —
a possible filter value, which is Python-falsy — the code skips
filtering and returns the full change list, while the claimed behavior
(the sublist of objects whose type equals the filter) would be the
empty list here, since the one object's type is "MTT", not "". -/
theorem get_commit_objects_empty_filter_cex :
    (get_commit_objects cfgAuthed (fun _ => .ok ⟨some [⟨some "obj-1", some "MTT"⟩]⟩)
        (some "")).result = .ok [⟨some "obj-1", some "MTT"⟩]
    ∧ List.filter (fun x => x.type == some "") [CommitChange.mk (some "obj-1") (some "MTT")] = []
    ∧ [CommitChange.mk (some "obj-1") (some "MTT")] ≠ [] := by
  refine ⟨by rfl, by rfl, by decide⟩

/-- C9 (amended): on an authenticated session whose commit fetch
succeeds, getCommitObjects with a non-empty type filter returns exactly
the sublist of changes whose type equals the filter, in the
server-returned order; with no filter — or the Python-falsy empty-string
filter — it returns the full change list unchanged. -/
theorem get_commit_objects_filter (cfg : IICSClient)
    (resp : Nat → Except IICSExc CommitJson) (js : CommitJson) (filt : Option String)
    (hpod : strTruthy cfg.pod_url = true) (hsid : strTruthy cfg.session_id = true)
    (hresp : resp 1 = .ok js) :
    (strTruthy filt = true →
      (get_commit_objects cfg resp filt).result =
        .ok ((js.changes.getD []).filter (fun x => x.type == filt)))
    ∧ (strTruthy filt = false →
      (get_commit_objects cfg resp filt).result = .ok (js.changes.getD [])) := by
  have hb : (strTruthy cfg.pod_url && strTruthy cfg.session_id) = true := by
    rw [hpod, hsid]; rfl
  constructor
  · intro hf
    simp [get_commit_objects, tenacityRun, tenacityGo, get_commit_objects_attempt,
      hresp, hb, hf]
  · intro hf
    simp [get_commit_objects, tenacityRun, tenacityGo, get_commit_objects_attempt,
      hresp, hb, hf]

theorem get_commit_objects_filter_witness :
    (get_commit_objects cfgAuthed
        (fun _ => .ok ⟨some [⟨some "i1", some "MTT"⟩, ⟨some "i2", some "DSS"⟩,
          ⟨some "i3", some "MTT"⟩]⟩) (some "MTT")).result =
      .ok (List.filter (fun x => x.type == some "MTT")
        [CommitChange.mk (some "i1") (some "MTT"), CommitChange.mk (some "i2") (some "DSS"),
         CommitChange.mk (some "i3") (some "MTT")]) :=
  (get_commit_objects_filter cfgAuthed
    (fun _ => .ok ⟨some [⟨some "i1", some "MTT"⟩, ⟨some "i2", some "DSS"⟩,
      ⟨some "i3", some "MTT"⟩]⟩)
    ⟨some [⟨some "i1", some "MTT"⟩, ⟨some "i2", some "DSS"⟩, ⟨some "i3", some "MTT"⟩]⟩
    (some "MTT") (by rfl) (by rfl) (by rfl)).1 (by rfl)

/-- C10: in the fallback pull path, commit change entries whose id is
missing or empty are silently excluded from the collected request body;
and a non-empty change list containing no entries with an id raises
exactly the PullError an empty commit raises. -/
theorem fallback_skips_missing_ids (cfg : IICSClient) (commit_hash : String)
    (commitResp commitResp' : Nat → Except IICSExc CommitJson)
    (pullResp : List String → Except IICSExc PullStartJson)
    (polls : List (Except IICSExc String)) (js : CommitJson)
    (hpod : strTruthy cfg.pod_url = true) (hsid : strTruthy cfg.session_id = true)
    (hresp : commitResp 1 = .ok js) (hresp' : commitResp' 1 = .ok ⟨some []⟩)
    (hnoids : collect_object_ids (js.changes.getD []) = []) :
    (∀ (pre post : List CommitChange) (bad : CommitChange),
      bad.id = none ∨ bad.id = some "" →
      collect_object_ids (pre ++ bad :: post) = collect_object_ids (pre ++ post))
    ∧ (pull_by_commit_objects cfg commit_hash commitResp pullResp polls).1 =
        some (.error (.pullError
          ("No object IDs found in commit " ++ commit_hash ++ " to pull.") none))
    ∧ (pull_by_commit_objects cfg commit_hash commitResp' pullResp polls).1 =
        some (.error (.pullError
          ("No object IDs found in commit " ++ commit_hash ++ " to pull.") none)) := by
  have hb : (strTruthy cfg.pod_url && strTruthy cfg.session_id) = true := by
    rw [hpod, hsid]; rfl
  refine ⟨?_, ?_, ?_⟩
  · intro pre post bad hbad
    unfold collect_object_ids
    rw [List.filterMap_append, List.filterMap_append]
    congr 1
    rcases hbad with hbad | hbad <;> simp [List.filterMap_cons, hbad]
  · simp [pull_by_commit_objects, get_commit_objects, tenacityRun, tenacityGo,
      get_commit_objects_attempt, hresp, hb, hnoids, strTruthy_none]
  · simp [pull_by_commit_objects, get_commit_objects, tenacityRun, tenacityGo,
      get_commit_objects_attempt, hresp', hb, collect_object_ids, strTruthy_none]

theorem fallback_skips_missing_ids_witness :
    collect_object_ids [CommitChange.mk (some "a") none, CommitChange.mk none (some "MTT"),
        CommitChange.mk (some "b") none] =
      collect_object_ids [CommitChange.mk (some "a") none, CommitChange.mk (some "b") none]
    ∧ (pull_by_commit_objects cfgAuthed "abc123"
        (fun _ => .ok ⟨some [⟨none, some "MTT"⟩, ⟨some "", some "DSS"⟩]⟩)
        (fun _ => .ok ⟨"pa-1"⟩) [.ok "SUCCESSFUL"]).1 =
      some (.error (.pullError "No object IDs found in commit abc123 to pull." none)) := by
  have h := fallback_skips_missing_ids cfgAuthed "abc123"
    (fun _ => .ok ⟨some [⟨none, some "MTT"⟩, ⟨some "", some "DSS"⟩]⟩)
    (fun _ => .ok ⟨some []⟩) (fun _ => .ok ⟨"pa-1"⟩) [.ok "SUCCESSFUL"]
    ⟨some [⟨none, some "MTT"⟩, ⟨some "", some "DSS"⟩]⟩
    (by rfl) (by rfl) (by rfl) (by rfl) (by rfl)
  exact ⟨h.1 [⟨some "a", none⟩] [⟨some "b", none⟩] ⟨none, some "MTT"⟩ (.inl rfl), h.2.1⟩

/-- C4: when the bulk pullByCommitHash endpoint reports not-found from
all candidate base URLs (the HTTPError 404 that `_core_v3_request`
re-raises then), pullByCommit falls back to pullByCommitObjects — it
fetches the commit's changed objects and issues a single explicit pull
request with their collected ids; the fallback fails with PullError
carrying the reported status when the polled pull action reaches a
terminal state other than SUCCESSFUL, and with PullError when the
commit yields zero object ids. -/
theorem pull_by_commit_fallback (cfg : IICSClient) (commit_hash m : String)
    (env : Nat → PullByCommitEnv)
    (hpod : strTruthy cfg.pod_url = true) (hsid : strTruthy cfg.session_id = true)
    (hbulk : (env 1).bulkResp = .error (.httpError 404 m)) :
    (pull_by_commit_attempt cfg commit_hash (env 1)).1 =
      (pull_by_commit_objects cfg commit_hash (env 1).commitResp (env 1).fallbackPull
        (env 1).fallbackPolls).1
    ∧ (∀ js, (env 1).commitResp 1 = .ok js →
        collect_object_ids (js.changes.getD []) = [] →
        pull_by_commit cfg commit_hash env =
          (some (.error (.pullError
            ("No object IDs found in commit " ++ commit_hash ++ " to pull.") none)), 2))
    ∧ (∀ js oid oids pj msg st, (env 1).commitResp 1 = .ok js →
        collect_object_ids (js.changes.getD []) = oid :: oids →
        (env 1).fallbackPull (oid :: oids) = .ok pj →
        (wait_for_pull_completion (env 1).fallbackPolls).2 =
          some (.error (.pullError msg (some st))) →
        (pull_by_commit cfg commit_hash env).1 = some (.error (.pullError msg (some st))))
    ∧ (∀ s, s ≠ "IN_PROGRESS" → s ≠ "SUCCESSFUL" →
        wait_for_pull_completion [.ok s] =
          ([.sleep 10, .fetch],
            some (.error (.pullError ("Pull failed with status: " ++ s) (some s))))) := by
  have hb : (strTruthy cfg.pod_url && strTruthy cfg.session_id) = true := by
    rw [hpod, hsid]; rfl
  refine ⟨?_, ?_, ?_, ?_⟩
  · simp [pull_by_commit_attempt, hb, hbulk]
  · intro js hjs hnoids
    simp [pull_by_commit, retryOptGo, pull_by_commit_attempt, hb, hbulk,
      pull_by_commit_objects, get_commit_objects, tenacityRun, tenacityGo,
      get_commit_objects_attempt, hjs, hnoids, strTruthy_none, isRequestException]
  · intro js oid oids pj msg st hjs hids hpull hpoll
    simp [pull_by_commit, retryOptGo, pull_by_commit_attempt, hb, hbulk,
      pull_by_commit_objects, get_commit_objects, tenacityRun, tenacityGo,
      get_commit_objects_attempt, hjs, hids, hpull, hpoll, strTruthy_none,
      isRequestException]
  · intro s h1 h2
    simp [wait_for_pull_completion, wait_for_pull_completion_go, pull_terminal, h1, h2]

theorem pull_by_commit_fallback_witness :
    (pull_by_commit cfgAuthed "abc123def456"
      (fun _ => ⟨.error (.httpError 404 "not found"), [],
        (fun _ => .ok ⟨some [⟨some "obj-1", some "MTT"⟩]⟩),
        (fun _ => .ok ⟨"pa-7"⟩), [.ok "FAILED"]⟩)).1 =
      some (.error (.pullError "Pull failed with status: FAILED" (some "FAILED"))) := by
  have h := pull_by_commit_fallback cfgAuthed "abc123def456" "not found"
    (fun _ => ⟨.error (.httpError 404 "not found"), [],
      (fun _ => .ok ⟨some [⟨some "obj-1", some "MTT"⟩]⟩),
      (fun _ => .ok ⟨"pa-7"⟩), [.ok "FAILED"]⟩)
    (by rfl) (by rfl) (by rfl)
  exact h.2.2.1 ⟨some [⟨some "obj-1", some "MTT"⟩]⟩ "obj-1" [] ⟨"pa-7"⟩
    "Pull failed with status: FAILED" "FAILED" (by rfl) (by rfl) (by rfl) (by rfl)

end IICS
